import Mathlib

/-!
Verification of the poly-glotson JSON decoder.

This file is a shallow embedding of the two decoder variants of the
repository that the claims refer to:

* `src/pyson/pyson/pyson.py`  (variant 1, tokens carry copied, eagerly
  decoded substrings) — embedded in namespace `Pyson`;
* `src/pyson/src/pyson3.py`   (variant 3, tokens carry source-offset
  spans, decoding deferred to materialization) — embedded in namespace
  `Pyson3`.

Python strings are modelled as `List Char`, Python exceptions as the
`PyErr` error type of an `Except` monad (so that every out-of-bounds
index becomes an explicit error outcome), Python loops as fuel-indexed
structural recursion (the fuel bounds are chosen large enough for the
loops of the source, each of which strictly advances an index bounded
by the input length; see the comments at the individual definitions).

Python floats are modelled as exact rationals: the float literals the
decoder manipulates are parsed exactly, without binary64 rounding or
overflow-to-infinity.  All concrete values appearing in this file are
exactly representable in binary64, so the model agrees with CPython on
them.
-/

/- Batteries marks the arithmetic of `Rat` `@[irreducible]`; restore
kernel-visible reducibility so that the concrete decoder runs below can
be checked by `rfl`. -/
attribute [local semireducible] Rat.mul Rat.add Rat.sub Rat.inv Rat.ofScientific

/-- The kinds of token of `TokenType` (identical in both source files). -/
inductive TokenType where
  | L_CURLY | R_CURLY | L_BRACKET | R_BRACKET | COLON | COMMA
  | STRING | NUMBER | BOOLEAN | NULL
deriving DecidableEq, Repr

/-- A Python exception, parameterized by the token type appearing in the
diagnostic context of `ValueError`s raised through `Parser._error` (the
f-string there interpolates the prior two tokens, the cursor `self.i`
and the token at the cursor; we keep that data structurally).
`fuelOut` is an artifact of the fuel-indexed embedding and corresponds
to no Python behavior; fuel bounds are chosen so that it is not reached
from `loads`. -/
inductive PyErr (α : Type) where
  | valueError (msg : String) (ctx : Option (List α × Nat × α))
  | indexError
  | attributeError (attr : String)
  | assertionError
  | fuelOut
deriving Repr

/-- The diagnostic context carried by an error, if any. -/
def PyErr.errCtx : PyErr α → Option (List α × Nat × α)
  | .valueError _ c => c
  | _ => none

/-- The decoded JSON value tree (`Value` in the sources: str, int, float,
dict, list, bool, None).  Python dicts are insertion-ordered with unique
keys (uniqueness is enforced by the parser), modelled as association
lists. -/
inductive Value where
  | str : String → Value
  | int : Int → Value
  | float : ℚ → Value
  | bool : Bool → Value
  | null : Value
  | arr : List Value → Value
  | obj : List (String × Value) → Value

/-- The keys of an object value, in insertion order. -/
def Value.objKeys : Value → List String
  | .obj kvs => kvs.map (fun p => p.1)
  | _ => []

/-- Python slicing `s[a:b]` for `0 ≤ a, b` (clamping, never raising). -/
def sliceN (s : List α) (a b : Nat) : List α := (s.take b).drop a

/-- Full Python slicing `l[a:b]` including negative indices: a negative
bound counts from the end, and both bounds are clamped to `[0, len]`. -/
def pySlice (l : List α) (a b : Int) : List α :=
  let n : Int := l.length
  let a' : Int := if a < 0 then max (n + a) 0 else min a n
  let b' : Int := if b < 0 then max (n + b) 0 else min b n
  (l.take b'.toNat).drop a'.toNat

/-- Python `s.replace(pat, rep)` specialized to the two-character
patterns used by the decoder: leftmost, non-overlapping replacement in a
single left-to-right pass. -/
def replace2 (p1 p2 : Char) (rep : List Char) : List Char → List Char
  | [] => []
  | [c] => [c]
  | c1 :: c2 :: rest =>
    if c1 = p1 ∧ c2 = p2 then rep ++ replace2 p1 p2 rep rest
    else c1 :: replace2 p1 p2 rep (c2 :: rest)

/-- The escape-replacement chain applied to a raw string span, shared
verbatim by `pyson.py` (in `lex`) and `pyson3.py` (in
`Parser.normalized_string`): the eight simple escapes are replaced by
their single-character equivalents and `\u` is replaced by the letter
`u`, in exactly this order. -/
def replaceChain (s : List Char) : List Char :=
  replace2 '\\' 'u' ['u']
    (replace2 '\\' 't' ['\t']
      (replace2 '\\' 'r' ['\r']
        (replace2 '\\' 'n' ['\n']
          (replace2 '\\' 'f' ['\x0C']
            (replace2 '\\' 'b' ['\x08']
              (replace2 '\\' '/' ['/']
                (replace2 '\\' '"' ['"']
                  (replace2 '\\' '\\' ['\\'] s))))))))

/-- The character classification tables of the sources. -/
def WHITESPACE : List Char := " \x08\t\r\n\x0C".data

def HEXDIGITS : List Char := "0123456789abcdefABCDEF".data

def DIGITS : List Char := "0123456789".data

def NUMERIC : List Char := "0123456789.eE+-".data

/-- Numeric value of a list of decimal digits. -/
def digitsVal (ds : List Char) : Nat :=
  ds.foldl (fun acc c => acc * 10 + (c.toNat - 48)) 0

/-- Positive powers of ten over ℚ, and their inverses for negative
exponents. -/
def pow10 : Int → ℚ
  | .ofNat n => (10 : ℚ) ^ n
  | .negSucc n => 1 / (10 : ℚ) ^ (n + 1)

/-- The exponent suffix of a Python float literal: empty, or `e`/`E`
followed by an optional sign and at least one digit, scaling the
mantissa by a power of ten.  Returns `none` on anything else (Python
`float()` raises `ValueError`). -/
def pyFloatExp (q : ℚ) (s : List Char) : Option ℚ :=
  match s with
  | [] => some q
  | e :: rest =>
    if e = 'e' ∨ e = 'E' then
      let (sgn, rest2) : Int × List Char :=
        match rest with
        | '+' :: r => (1, r)
        | '-' :: r => (-1, r)
        | r => (1, r)
      let ds := rest2.takeWhile Char.isDigit
      let tail := rest2.dropWhile Char.isDigit
      if ds = [] ∨ tail ≠ [] then none
      else some (q * pow10 (sgn * (digitsVal ds : Int)))
    else none

/-- Python `float(string)` on the character data of a numeric span,
modelled as an exact rational: optional sign, then either `digits`,
`digits . digits*` or `. digits+`, then an optional exponent.  `none`
models the `ValueError` CPython raises on a malformed literal.
(Leading/trailing whitespace, underscores, `inf` and `nan` are accepted
by CPython but cannot occur in a span drawn from the `NUMERIC`
character set; binary64 rounding and overflow to infinity are not
modelled.) -/
def pyFloat (s : List Char) : Option ℚ :=
  let (sgn, s1) : ℚ × List Char :=
    match s with
    | '+' :: r => (1, r)
    | '-' :: r => (-1, r)
    | r => (1, r)
  let ds := s1.takeWhile Char.isDigit
  let rest := s1.dropWhile Char.isDigit
  match ds, rest with
  | [], '.' :: r2 =>
    let fd := r2.takeWhile Char.isDigit
    let r3 := r2.dropWhile Char.isDigit
    if fd = [] then none
    else (pyFloatExp ((digitsVal fd : ℚ) / (10 : ℚ) ^ fd.length) r3).map (sgn * ·)
  | [], _ => none
  | _, '.' :: r2 =>
    let fd := r2.takeWhile Char.isDigit
    let r3 := r2.dropWhile Char.isDigit
    (pyFloatExp ((digitsVal ds : ℚ) + (digitsVal fd : ℚ) / (10 : ℚ) ^ fd.length) r3).map (sgn * ·)
  | _, r2 =>
    (pyFloatExp (digitsVal ds : ℚ) r2).map (sgn * ·)

/-- Python `int(f)`: truncation toward zero. -/
def ratTrunc (q : ℚ) : Int :=
  if q.num < 0 then -(Int.ofNat (q.num.natAbs / q.den)) else Int.ofNat (q.num.natAbs / q.den)

/-- Fuel given to the token-consuming parser loops; every recursive call
of the parser either strictly advances the token cursor or is charged to
a distinct cursor value (at most a `parse_value` entry and one loop
entry per cursor position, cursor bounded by `length + 1`), so
`3 * n + 8` units are more than the parser can consume on `n` tokens. -/
def parserFuel (n : Nat) : Nat := 3 * n + 8

/-- Shared by both variants (the loop bodies are textually identical):
the maximal-run scan of `case _ as v if v in NUMERIC`, i.e.
`while json[i] in NUMERIC: i += 1`, returning the index just past the
run.  `json[i]` at an out-of-bounds `i` raises `IndexError` — there is
no bounds check in the source loop. -/
def numberScan : Nat → List Char → Nat → Except (PyErr α) Nat
  | 0, _, _ => .error .fuelOut
  | fuel + 1, json, i =>
    match json.get? i with
    | none => .error .indexError
    | some c => if c ∈ NUMERIC then numberScan fuel json (i + 1) else .ok i

namespace Pyson3

/-- `Token` of pyson3.py: a kind and a half-open span into the source
text (field `end` of the source is named `stop` here, `end` being a
Lean keyword). -/
structure Token where
  type : TokenType
  start : Nat
  stop : Nat
deriving DecidableEq, Repr

/-- The simple escape characters accepted after a backslash. -/
def escapeSimple : List Char := ['"', '\\', '/', 'b', 'f', 'n', 'r', 't']

/-- The inner string scan of `lex` (the `case '"'` loop).  Notes on
fidelity to the source:
* the loop condition `while json:` is vacuously true whenever this
  branch is reachable (the dispatch just read `json[i]`), and the loop
  exits only through `break` or an exception, so it is not modelled as
  a condition;
* `json[idx]` and `json[idx + 1]` raise `IndexError` past the end;
* in the `case "u"` arm the source computes
  `hx1, hx2, hx3, hx4 = unicodes.split("")`; CPython's `str.split`
  raises `ValueError: empty separator` for an empty separator, so this
  arm always raises that error and the hex-digit validation that
  follows it is dead code. -/
def lexStringScan : Nat → List Char → Nat → Nat → Except (PyErr Token) (Token × Nat)
  | 0, _, _, _ => .error .fuelOut
  | fuel + 1, json, i, idx =>
    match json.get? idx with
    | none => .error .indexError
    | some v =>
      if v = '"' then .ok (⟨.STRING, i, idx + 1⟩, idx + 1)
      else if v = '\\' then
        match json.get? (idx + 1) with
        | none => .error .indexError
        | some n =>
          if n ∈ escapeSimple then lexStringScan fuel json i (idx + 2)
          else if n = 'u' then .error (.valueError "empty separator" none)
          else .error (.valueError "Invalid string escaping" none)
      else lexStringScan fuel json i (idx + 1)

/-- The main lexer loop of `lex` (pyson3.py).  Dispatch on `json[i]`:
single-character tokens, the `true`/`false`/`null` literals (checked by
slice comparison), strings, maximal numeric runs, and silent skipping
of any other character.  Inner loops get fresh fuel `json.length + 1`,
sufficient since each of their steps advances an index that errors once
past `json.length`. -/
def lexLoop : Nat → List Char → Nat → List Token → Except (PyErr Token) (List Token)
  | 0, _, _, _ => .error .fuelOut
  | fuel + 1, json, i, tokens =>
    if i < json.length then
      match json.get? i with
      | none => .error .indexError
      | some c =>
        if c = '{' then lexLoop fuel json (i + 1) (tokens ++ [⟨.L_CURLY, i, i + 1⟩])
        else if c = '}' then lexLoop fuel json (i + 1) (tokens ++ [⟨.R_CURLY, i, i + 1⟩])
        else if c = '[' then lexLoop fuel json (i + 1) (tokens ++ [⟨.L_BRACKET, i, i + 1⟩])
        else if c = ']' then lexLoop fuel json (i + 1) (tokens ++ [⟨.R_BRACKET, i, i + 1⟩])
        else if c = ':' then lexLoop fuel json (i + 1) (tokens ++ [⟨.COLON, i, i + 1⟩])
        else if c = ',' then lexLoop fuel json (i + 1) (tokens ++ [⟨.COMMA, i, i + 1⟩])
        else if c = 't' then
          if sliceN json i (i + 4) = "true".data then
            lexLoop fuel json (i + 4) (tokens ++ [⟨.BOOLEAN, i, i + 4⟩])
          else .error (.valueError "Invalid true value" none)
        else if c = 'f' then
          if sliceN json i (i + 5) = "false".data then
            lexLoop fuel json (i + 5) (tokens ++ [⟨.BOOLEAN, i, i + 5⟩])
          else .error (.valueError "Invalid false value" none)
        else if c = 'n' then
          if sliceN json i (i + 4) = "null".data then
            lexLoop fuel json (i + 4) (tokens ++ [⟨.NULL, i, i + 4⟩])
          else .error (.valueError "Invalid null value" none)
        else if c = '"' then
          match lexStringScan (json.length + 1) json i (i + 1) with
          | .error e => .error e
          | .ok (t, j) => lexLoop fuel json j (tokens ++ [t])
        else if c ∈ NUMERIC then
          match numberScan (json.length + 1) json i with
          | .error e => .error e
          | .ok j => lexLoop fuel json j (tokens ++ [⟨.NUMBER, i, j⟩])
        else lexLoop fuel json (i + 1) tokens
    else .ok tokens

/-- `lex(json)` of pyson3.py.  Fuel `json.length + 1` suffices: every
iteration of the outer loop strictly advances `i` or terminates with an
error. -/
def lex (json : List Char) : Except (PyErr Token) (List Token) :=
  lexLoop (json.length + 1) json 0 []

/-- The parser's read-only state: `self.tokens`, `self.length`,
`self.json` (the cursor `self.i` is passed explicitly). -/
structure Ctx where
  tokens : List Token
  length : Nat
  json : List Char

/-- `Parser.get_string`: resolve a token's span against the source. -/
def get_string (ctx : Ctx) (t : Token) : String :=
  String.mk (sliceN ctx.json t.start t.stop)

/-- `Parser.normalized_string`: the raw span (delimiting quotes
included) with the escape-replacement chain applied. -/
def normalized_string (ctx : Ctx) (t : Token) : String :=
  String.mk (replaceChain (get_string ctx t).data)

/-- `raise ValueError(self._error(msg))`: `_error` slices the two
tokens before the cursor (Python slice semantics, hence `pySlice` with
a possibly negative lower bound), and interpolates the message, the
slice, the cursor and the token at the cursor — reading `self.tokens[self.i]`
raises `IndexError` if the cursor is out of bounds. -/
def raiseError (ctx : Ctx) (i : Nat) (msg : String) : Except (PyErr Token) α :=
  let prior := pySlice ctx.tokens ((i : Int) - 2) (i : Int)
  match ctx.tokens.get? i with
  | none => .error .indexError
  | some t => .error (.valueError msg (some (prior, i, t)))

/-- The unconditional comma consumption ending `parse_value`
(`if self.tokens[self.i].type == TokenType.COMMA: self.i += 1`); the
index read raises `IndexError` when the cursor is past the end. -/
def commaSkip (ctx : Ctx) (i : Nat) : Except (PyErr Token) Nat :=
  match ctx.tokens.get? i with
  | none => .error .indexError
  | some t => if t.type = .COMMA then .ok (i + 1) else .ok i

/-- Package a produced value with the comma consumption that follows
every `parse_value` branch. -/
def finishValue (ctx : Ctx) (v : Value) (i : Nat) : Except (PyErr Token) (Value × Nat) :=
  match commaSkip ctx i with
  | .error e => .error e
  | .ok j => .ok (v, j)

mutual

/-- `Parser.parse_value` of pyson3.py: dispatch on the token type at
the cursor, produce a value, then consume a following comma
unconditionally.  The Number branch resolves the span as text, parses
it with `float`, and keeps the float exactly when the text contains a
`.` and otherwise truncates it to an integer. -/
def parse_value : Nat → Ctx → Nat → Except (PyErr Token) (Value × Nat)
  | 0, _, _ => .error .fuelOut
  | fuel + 1, ctx, i =>
    match ctx.tokens.get? i with
    | none => .error .indexError
    | some t =>
      match t.type with
      | .STRING => finishValue ctx (.str (normalized_string ctx t)) (i + 1)
      | .NUMBER =>
        match pyFloat (get_string ctx t).data with
        | none => .error (.valueError "could not convert string to float" none)
        | some q =>
          finishValue ctx
            (if '.' ∈ (get_string ctx t).data then .float q else .int (ratTrunc q)) (i + 1)
      | .L_CURLY =>
        match parse_objectLoop fuel ctx (i + 1) [] [] with
        | .error e => .error e
        | .ok (kvs, j) => finishValue ctx (.obj kvs) j
      | .L_BRACKET =>
        match parse_arrayLoop fuel ctx (i + 1) [] with
        | .error e => .error e
        | .ok (xs, j) => finishValue ctx (.arr xs) j
      | .BOOLEAN => finishValue ctx (.bool (get_string ctx t == "true")) (i + 1)
      | .NULL => finishValue ctx .null (i + 1)
      | _ => raiseError ctx i "Unknown tokentype"
termination_by structural fuel => fuel

/-- The `while self.i < self.length` loop of `Parser.parse_object`,
with the result mapping and the `known_keys` set as accumulators.  The
`assert key  # mypy fix` of the source fails (AssertionError) on a
falsy — i.e. empty — key. -/
def parse_objectLoop : Nat → Ctx → Nat → List (String × Value) → List String →
    Except (PyErr Token) (List (String × Value) × Nat)
  | 0, _, _, _, _ => .error .fuelOut
  | fuel + 1, ctx, i, result, known =>
    if i < ctx.length then
      match ctx.tokens.get? i with
      | none => .error .indexError
      | some t =>
        match t.type with
        | .R_CURLY => .ok (result, i + 1)
        | .STRING =>
          let key := normalized_string ctx t
          if key = "" then .error .assertionError
          else if key ∈ known then raiseError ctx i "Duplicate key found"
          else
            match ctx.tokens.get? (i + 1) with
            | none => .error .indexError
            | some t2 =>
              if t2.type ≠ .COLON then raiseError ctx (i + 1) "Expected colon"
              else
                match parse_value fuel ctx (i + 2) with
                | .error e => .error e
                | .ok (v, j) => parse_objectLoop fuel ctx j (result ++ [(key, v)]) (known ++ [key])
        | _ => raiseError ctx i "Invalid object content"
    else .ok (result, i)
termination_by structural fuel => fuel

/-- The `while self.i < self.length` loop of `Parser.parse_array`. -/
def parse_arrayLoop : Nat → Ctx → Nat → List Value →
    Except (PyErr Token) (List Value × Nat)
  | 0, _, _, _ => .error .fuelOut
  | fuel + 1, ctx, i, result =>
    if i < ctx.length then
      match ctx.tokens.get? i with
      | none => .error .indexError
      | some t =>
        if t.type = .R_BRACKET then .ok (result, i + 1)
        else
          match parse_value fuel ctx i with
          | .error e => .error e
          | .ok (v, j) => parse_arrayLoop fuel ctx j (result ++ [v])
    else .ok (result, i)
termination_by structural fuel => fuel

end

/-- `Parser.parse` of pyson3.py.  Note on the too-short branch: the
source raises `ValueError(self._error("Too short to be valid"))`, but
`_error` reads `self.i`, which `parse` only assigns *after* this check,
and `loads` always calls `parse` on a fresh `Parser()`; CPython
therefore raises `AttributeError` (`'Parser' object has no attribute 'i'`)
while building the message.  After that check the cursor starts at 1,
just past the top-level opener. -/
def parse (jsonStr : String) : Except (PyErr Token) Value :=
  match lex jsonStr.data with
  | .error e => .error e
  | .ok tokens =>
    let ctx : Ctx := ⟨tokens, tokens.length, jsonStr.data⟩
    if tokens.length < 2 then .error (.attributeError "i")
    else
      match tokens.get? 0 with
      | none => .error .indexError
      | some t0 =>
        match t0.type with
        | .L_CURLY =>
          match parse_objectLoop (parserFuel tokens.length) ctx 1 [] [] with
          | .error e => .error e
          | .ok (kvs, _) => .ok (.obj kvs)
        | .L_BRACKET =>
          match parse_arrayLoop (parserFuel tokens.length) ctx 1 [] with
          | .error e => .error e
          | .ok (xs, _) => .ok (.arr xs)
        | _ => raiseError ctx 1 "Invalid input"

/-- `loads(json)` of pyson3.py: `Parser().parse(json)`. -/
def loads (s : String) : Except (PyErr Token) Value := parse s

end Pyson3

namespace Pyson

/-- `Token` of pyson.py: a kind and an owned, optional value string
(`value: str | None = None`). -/
structure Token where
  type : TokenType
  value : Option String := none
deriving DecidableEq, Repr

/-- The inner string scan of `lex` in pyson.py.  Identical traversal to
the pyson3 variant (including the always-raising
`unicodes.split("")` in the `case "u"` arm), but on the closing quote
the token value is materialized eagerly: the full quoted span
`json[i:idx]` with the escape-replacement chain applied. -/
def lexStringScan : Nat → List Char → Nat → Nat → Except (PyErr Token) (Token × Nat)
  | 0, _, _, _ => .error .fuelOut
  | fuel + 1, json, i, idx =>
    match json.get? idx with
    | none => .error .indexError
    | some v =>
      if v = '"' then
        .ok (⟨.STRING, some (String.mk (replaceChain (sliceN json i (idx + 1))))⟩, idx + 1)
      else if v = '\\' then
        match json.get? (idx + 1) with
        | none => .error .indexError
        | some n =>
          if n ∈ Pyson3.escapeSimple then lexStringScan fuel json i (idx + 2)
          else if n = 'u' then .error (.valueError "empty separator" none)
          else .error (.valueError "Invalid string escaping" none)
      else lexStringScan fuel json i (idx + 1)

/-- The main lexer loop of `lex` (pyson.py): same dispatch as pyson3,
but tokens own their text — literal `"true"`/`"false"`/`"null"` strings
for the keyword tokens, the copied span for numbers, the decoded text
for strings, and no value for punctuation. -/
def lexLoop : Nat → List Char → Nat → List Token → Except (PyErr Token) (List Token)
  | 0, _, _, _ => .error .fuelOut
  | fuel + 1, json, i, tokens =>
    if i < json.length then
      match json.get? i with
      | none => .error .indexError
      | some c =>
        if c = '{' then lexLoop fuel json (i + 1) (tokens ++ [⟨.L_CURLY, none⟩])
        else if c = '}' then lexLoop fuel json (i + 1) (tokens ++ [⟨.R_CURLY, none⟩])
        else if c = '[' then lexLoop fuel json (i + 1) (tokens ++ [⟨.L_BRACKET, none⟩])
        else if c = ']' then lexLoop fuel json (i + 1) (tokens ++ [⟨.R_BRACKET, none⟩])
        else if c = ':' then lexLoop fuel json (i + 1) (tokens ++ [⟨.COLON, none⟩])
        else if c = ',' then lexLoop fuel json (i + 1) (tokens ++ [⟨.COMMA, none⟩])
        else if c = 't' then
          if sliceN json i (i + 4) = "true".data then
            lexLoop fuel json (i + 4) (tokens ++ [⟨.BOOLEAN, some "true"⟩])
          else .error (.valueError "Invalid true value" none)
        else if c = 'f' then
          if sliceN json i (i + 5) = "false".data then
            lexLoop fuel json (i + 5) (tokens ++ [⟨.BOOLEAN, some "false"⟩])
          else .error (.valueError "Invalid false value" none)
        else if c = 'n' then
          if sliceN json i (i + 4) = "null".data then
            lexLoop fuel json (i + 4) (tokens ++ [⟨.NULL, some "null"⟩])
          else .error (.valueError "Invalid null value" none)
        else if c = '"' then
          match lexStringScan (json.length + 1) json i (i + 1) with
          | .error e => .error e
          | .ok (t, j) => lexLoop fuel json j (tokens ++ [t])
        else if c ∈ NUMERIC then
          match numberScan (json.length + 1) json i with
          | .error e => .error e
          | .ok j => lexLoop fuel json j (tokens ++ [⟨.NUMBER, some (String.mk (sliceN json i j))⟩])
        else lexLoop fuel json (i + 1) tokens
    else .ok tokens

/-- `lex(json)` of pyson.py. -/
def lex (json : List Char) : Except (PyErr Token) (List Token) :=
  lexLoop (json.length + 1) json 0 []

/-- The parser's read-only state for pyson.py: `self.tokens` and
`self.length` (this variant needs no source text at parse time). -/
structure Ctx where
  tokens : List Token
  length : Nat

/-- `raise ValueError(self._error(msg))` of pyson.py, structurally
identical to the pyson3 variant. -/
def raiseError (ctx : Ctx) (i : Nat) (msg : String) : Except (PyErr Token) α :=
  let prior := pySlice ctx.tokens ((i : Int) - 2) (i : Int)
  match ctx.tokens.get? i with
  | none => .error .indexError
  | some t => .error (.valueError msg (some (prior, i, t)))

/-- The unconditional comma consumption ending `parse_value`. -/
def commaSkip (ctx : Ctx) (i : Nat) : Except (PyErr Token) Nat :=
  match ctx.tokens.get? i with
  | none => .error .indexError
  | some t => if t.type = .COMMA then .ok (i + 1) else .ok i

/-- Package a produced value with the trailing comma consumption. -/
def finishValue (ctx : Ctx) (v : Value) (i : Nat) : Except (PyErr Token) (Value × Nat) :=
  match commaSkip ctx i with
  | .error e => .error e
  | .ok j => .ok (v, j)

mutual

/-- `Parser.parse_value` of pyson.py.  The String branch assigns the
token's owned value (`value = v.value`, which is `None` for a valueless
token); the Number branch runs `assert v.value` (an `AssertionError`
on a `None` or empty value, the `# mypy fix` of the source) before
`float(v.value)`. -/
def parse_value : Nat → Ctx → Nat → Except (PyErr Token) (Value × Nat)
  | 0, _, _ => .error .fuelOut
  | fuel + 1, ctx, i =>
    match ctx.tokens.get? i with
    | none => .error .indexError
    | some t =>
      match t.type with
      | .STRING =>
        match t.value with
        | some s => finishValue ctx (.str s) (i + 1)
        | none => finishValue ctx .null (i + 1)
      | .NUMBER =>
        match t.value with
        | none => .error .assertionError
        | some s =>
          if s = "" then .error .assertionError
          else
            match pyFloat s.data with
            | none => .error (.valueError "could not convert string to float" none)
            | some q =>
              finishValue ctx (if '.' ∈ s.data then .float q else .int (ratTrunc q)) (i + 1)
      | .L_CURLY =>
        match parse_objectLoop fuel ctx (i + 1) [] [] with
        | .error e => .error e
        | .ok (kvs, j) => finishValue ctx (.obj kvs) j
      | .L_BRACKET =>
        match parse_arrayLoop fuel ctx (i + 1) [] with
        | .error e => .error e
        | .ok (xs, j) => finishValue ctx (.arr xs) j
      | .BOOLEAN => finishValue ctx (.bool (t.value == some "true")) (i + 1)
      | .NULL => finishValue ctx .null (i + 1)
      | _ => raiseError ctx i "Unknown tokentype"
termination_by structural fuel => fuel

/-- The `while self.i < self.length` loop of `Parser.parse_object`
(pyson.py): the key is the token's owned value
(`key = self.tokens[self.i].value; assert key`). -/
def parse_objectLoop : Nat → Ctx → Nat → List (String × Value) → List String →
    Except (PyErr Token) (List (String × Value) × Nat)
  | 0, _, _, _, _ => .error .fuelOut
  | fuel + 1, ctx, i, result, known =>
    if i < ctx.length then
      match ctx.tokens.get? i with
      | none => .error .indexError
      | some t =>
        match t.type with
        | .R_CURLY => .ok (result, i + 1)
        | .STRING =>
          match t.value with
          | none => .error .assertionError
          | some key =>
            if key = "" then .error .assertionError
            else if key ∈ known then raiseError ctx i "Duplicate key found"
            else
              match ctx.tokens.get? (i + 1) with
              | none => .error .indexError
              | some t2 =>
                if t2.type ≠ .COLON then raiseError ctx (i + 1) "Expected colon"
                else
                  match parse_value fuel ctx (i + 2) with
                  | .error e => .error e
                  | .ok (v, j) =>
                    parse_objectLoop fuel ctx j (result ++ [(key, v)]) (known ++ [key])
        | _ => raiseError ctx i "Invalid object content"
    else .ok (result, i)
termination_by structural fuel => fuel

/-- The `while self.i < self.length` loop of `Parser.parse_array`
(pyson.py). -/
def parse_arrayLoop : Nat → Ctx → Nat → List Value →
    Except (PyErr Token) (List Value × Nat)
  | 0, _, _, _ => .error .fuelOut
  | fuel + 1, ctx, i, result =>
    if i < ctx.length then
      match ctx.tokens.get? i with
      | none => .error .indexError
      | some t =>
        if t.type = .R_BRACKET then .ok (result, i + 1)
        else
          match parse_value fuel ctx i with
          | .error e => .error e
          | .ok (v, j) => parse_arrayLoop fuel ctx j (result ++ [v])
    else .ok (result, i)
termination_by structural fuel => fuel

end

/-- `Parser.parse(tokens)` of pyson.py; same entry rule as pyson3
(including the `AttributeError` on the too-short branch, since
`self.i` is only assigned after that check and `loads` parses with a
fresh `Parser()`). -/
def parse (tokens : List Token) : Except (PyErr Token) Value :=
  let ctx : Ctx := ⟨tokens, tokens.length⟩
  if tokens.length < 2 then .error (.attributeError "i")
  else
    match tokens.get? 0 with
    | none => .error .indexError
    | some t0 =>
      match t0.type with
      | .L_CURLY =>
        match parse_objectLoop (parserFuel tokens.length) ctx 1 [] [] with
        | .error e => .error e
        | .ok (kvs, _) => .ok (.obj kvs)
      | .L_BRACKET =>
        match parse_arrayLoop (parserFuel tokens.length) ctx 1 [] with
        | .error e => .error e
        | .ok (xs, _) => .ok (.arr xs)
      | _ => raiseError ctx 1 "Invalid input"

/-- `loads(json)` of pyson.py: `Parser().parse(lex(json))`. -/
def loads (s : String) : Except (PyErr Token) Value :=
  match lex s.data with
  | .error e => .error e
  | .ok tokens => parse tokens

end Pyson

/-! ## Correspondence between the two variants

The pyson.py and pyson3.py decoders differ only in token
representation: pyson.py materializes token text eagerly at lex time,
pyson3.py stores spans and materializes at parse time.  `cvTok`
resolves a span token of variant 3 into the owned token variant 1
produces for the same lexeme. -/

/-- Resolve a pyson3 span token to the pyson.py owned token for the
same lexeme: decoded text for strings, the raw span text for numbers
and the keyword literals, no value for punctuation. -/
def cvTok (json : List Char) (t : Pyson3.Token) : Pyson.Token :=
  match t.type with
  | .STRING => ⟨.STRING, some (String.mk (replaceChain (sliceN json t.start t.stop)))⟩
  | .NUMBER => ⟨.NUMBER, some (String.mk (sliceN json t.start t.stop))⟩
  | .BOOLEAN => ⟨.BOOLEAN, some (String.mk (sliceN json t.start t.stop))⟩
  | .NULL => ⟨.NULL, some (String.mk (sliceN json t.start t.stop))⟩
  | ty => ⟨ty, none⟩

/-- Transport a pyson3 error to the pyson.py error for the same failure
(contexts carry resolved tokens). -/
def cvE (json : List Char) : PyErr Pyson3.Token → PyErr Pyson.Token
  | .valueError m c =>
    .valueError m (c.map (fun p => (p.1.map (cvTok json), p.2.1, cvTok json p.2.2)))
  | .indexError => .indexError
  | .attributeError a => .attributeError a
  | .assertionError => .assertionError
  | .fuelOut => .fuelOut

/-- The simulation relation between the parser states of the two
variants: variant 1's tokens are the resolved variant-3 tokens, and the
recorded lengths agree. -/
def ctxRel (ctx1 : Pyson.Ctx) (ctx3 : Pyson3.Ctx) : Prop :=
  ctx1.tokens = ctx3.tokens.map (cvTok ctx3.json) ∧ ctx1.length = ctx3.length

/-- Result correspondence for the parsing functions of the two
variants: both succeed with the same value and cursor, or both fail
(the error payloads may differ, e.g. `AssertionError` versus the float
conversion `ValueError` on an empty number token). -/
def resRel {α : Type} (r1 : Except (PyErr Pyson.Token) (α × Nat))
    (r3 : Except (PyErr Pyson3.Token) (α × Nat)) : Prop :=
  (∃ a j, r1 = .ok (a, j) ∧ r3 = .ok (a, j)) ∨
  ((∃ e, r1 = .error e) ∧ (∃ e, r3 = .error e))

/-! ## Claims -/

/-- C2: the claim states that a `\uXXXX` escape with four hex digits is
accepted by the lexer and decoded to the literal text `uXXXX`, so that
`loads('{"a":"\u0041"}')` succeeds.  The code cannot do this: the
`case "u"` arm of the string scan runs `unicodes.split("")`, and
CPython's `str.split` raises `ValueError: empty separator` for an empty
separator, so every `\u` escape aborts the lex before the (dead)
hex-digit validation; the decode fails instead of producing `u0041`. -/
theorem c2_unicode_escape_code_bug :
    Pyson3.loads "\x7b\"a\":\"\\u0041\"\x7d" = .error (.valueError "empty separator" none) := rfl

/-- C5: the claim is that fewer than 2 tokens fail with a
"Too short to be valid" error and a non-brace/bracket first token fails
with "Invalid input".  The second half holds, but on the too-short
branch the source raises `ValueError(self._error(...))` where `_error`
reads `self.i`, which `parse` assigns only *after* the length check;
on the fresh `Parser()` used by `loads`, CPython raises
`AttributeError` instead of the intended ValueError. -/
theorem c5_entry_rule_code_bug :
    Pyson3.loads "" = .error (.attributeError "i") ∧
    Pyson3.loads "1," =
      .error (.valueError "Invalid input" (some ([], 1, ⟨.COMMA, 1, 2⟩))) :=
  ⟨rfl, rfl⟩

/-- C9 (counterexample): the claim says every truncated input fails
and never returns a value, partial or otherwise; but `loads('[1,')` —
a truncated array with no closing bracket — returns the partial tree
`[1]`: after the comma is consumed, the `while self.i < self.length`
array loop exits normally at the end of the token sequence without
ever requiring the closing bracket, and no out-of-bounds access
occurs. -/
theorem c9_truncated_inputs_counterexample :
    Pyson3.loads "[1," = .ok (.arr [.int 1]) := rfl

/-- C9 (amended): the two truncated inputs listed in the claim do fail
— `loads('[1,2')` and `loads('1')` both end in the numeric scan
reading past the end of the input, which the total embedding reports
as an `IndexError` outcome, and no value is returned — but truncation
does not fail in general: a container whose token sequence ends after
a consumed comma returns the partial tree built so far
(`loads('[1,')` yields `[1]`), because the parser loops exit normally
at the end of the token sequence. -/
theorem c9_truncated_inputs_amended :
    Pyson3.loads "[1,2" = .error .indexError ∧
    Pyson3.loads "1" = .error .indexError ∧
    Pyson3.loads "[1," = .ok (.arr [.int 1]) :=
  ⟨rfl, rfl, rfl⟩

/-- C3 (counterexample): the claim says decoded string values do not
include the delimiting quotes, but `loads('["x"]')` yields the string
`"x"` with both quote characters present — the span covers the full
quoted literal and the replacement chain strips nothing. -/
theorem c3_quotes_counterexample :
    Pyson3.loads "[\"x\"]" = .ok (.arr [.str "\"x\""]) ∧
    '"' ∈ ("\"x\"" : String).data :=
  ⟨rfl, by decide⟩

/-- C4 (counterexample): the claim says `loads('{"a":1,"b":2}')`
succeeds with keys `a` and `b` present in the result mapping; it does
succeed with two keys, but the decoded keys include the delimiting
quotes, so the key `a` is not in the mapping (the keys are `"a"` and
`"b"` quotes included). -/
theorem c4_duplicate_keys_counterexample :
    Pyson3.loads "\x7b\"a\":1,\"b\":2\x7d" =
      .ok (.obj [("\"a\"", .int 1), ("\"b\"", .int 2)]) ∧
    "a" ∉ (Value.obj [("\"a\"", .int 1), ("\"b\"", .int 2)]).objKeys :=
  ⟨rfl, by decide⟩

/-- C8 (counterexample): the claim says every error of a failed decode
carries the two preceding tokens, the cursor and the failing token; the
lexer's errors carry no such context — `loads('{"a":tru}')` fails with
a bare "Invalid true value" `ValueError` whose context is empty. -/
theorem c8_error_context_counterexample :
    Pyson3.loads "\x7b\"a\":tru\x7d" = .error (.valueError "Invalid true value" none) ∧
    (PyErr.valueError "Invalid true value"
      (none : Option (List Pyson3.Token × Nat × Pyson3.Token))).errCtx = none :=
  ⟨rfl, rfl⟩

/-- C10 (counterexample): the claim says a maximal numeric run is lexed
into a Number token without out-of-bounds access even when the run
extends to the end of the input; lexing `'[1,2] 5'` in fact runs
`json[i]` past the end of the text inside the numeric scan
(`IndexError`), and no token list is produced. -/
theorem c10_number_at_end_counterexample :
    Pyson3.lex "[1,2] 5".data = .error .indexError := rfl

/-- C6: after every value produced by `parse_value`, a Comma at the
cursor is consumed unconditionally (the final two lines of
`parse_value` run after every branch), and consequently a trailing
comma is accepted: `loads('[1,2,]')` succeeds. -/
theorem c6_comma_consumption :
    (∀ (ctx : Pyson3.Ctx) (i : Nat) (t : Pyson3.Token),
      ctx.tokens.get? i = some t → t.type = .COMMA →
      Pyson3.commaSkip ctx i = .ok (i + 1)) ∧
    Pyson3.loads "[1,2,]" = .ok (.arr [.int 1, .int 2]) := by
  refine ⟨?_, rfl⟩
  intro ctx i t h ht
  unfold Pyson3.commaSkip
  rw [h]
  simp [ht]

/-- C6 witness: the general comma-consumption fact applied at a
concrete state. -/
theorem c6_comma_consumption_witness :
    Pyson3.commaSkip ⟨[⟨.COMMA, 0, 1⟩], 1, []⟩ 0 = .ok 1 :=
  c6_comma_consumption.1 ⟨[⟨.COMMA, 0, 1⟩], 1, []⟩ 0 ⟨.COMMA, 0, 1⟩ rfl rfl

/-- C1: for every Number token the parser resolves the span as text,
parses it as a float, and classifies the result by the presence of a
`.` character in the text (float if present, truncated integer
otherwise); concretely `loads('[1.5]')` yields the float 3/2,
`loads('[150]')` the integer 150, and `loads('[1e2]')` the integer 100
rather than a float (the decisive check is `.`, not the exponent). -/
theorem c1_number_classification :
    (∀ (fuel : Nat) (ctx : Pyson3.Ctx) (i : Nat) (t : Pyson3.Token) (v : Value) (j : Nat),
      ctx.tokens.get? i = some t → t.type = .NUMBER →
      Pyson3.parse_value (fuel + 1) ctx i = .ok (v, j) →
      ∃ q : ℚ, pyFloat (Pyson3.get_string ctx t).data = some q ∧
        v = if '.' ∈ (Pyson3.get_string ctx t).data then .float q else .int (ratTrunc q)) ∧
    Pyson3.loads "[1.5]" = .ok (.arr [.float (3 / 2)]) ∧
    Pyson3.loads "[150]" = .ok (.arr [.int 150]) ∧
    Pyson3.loads "[1e2]" = .ok (.arr [.int 100]) := by
  refine ⟨?_, rfl, rfl, rfl⟩
  intro fuel ctx i t v j hget htype hok
  obtain ⟨ty, ts, te⟩ := t
  cases htype
  unfold Pyson3.parse_value at hok
  rw [hget] at hok
  dsimp only at hok
  cases hq : pyFloat (Pyson3.get_string ctx ⟨.NUMBER, ts, te⟩).data with
  | none => rw [hq] at hok; simp at hok
  | some q =>
    rw [hq] at hok
    refine ⟨q, rfl, ?_⟩
    unfold Pyson3.finishValue at hok
    cases hcs : Pyson3.commaSkip ctx (i + 1) with
    | error e => rw [hcs] at hok; simp at hok
    | ok j2 =>
      rw [hcs] at hok
      simp only [Except.ok.injEq, Prod.mk.injEq] at hok
      exact hok.1.symm

/-- C1 witness: the classification fact applied to the Number token of
`'[1.5]'`. -/
theorem c1_number_classification_witness :
    ∃ q : ℚ,
      pyFloat (Pyson3.get_string
        ⟨[⟨.L_BRACKET, 0, 1⟩, ⟨.NUMBER, 1, 4⟩, ⟨.R_BRACKET, 4, 5⟩], 3, "[1.5]".data⟩
        ⟨.NUMBER, 1, 4⟩).data = some q ∧
      (Value.float (3 / 2)) =
        if '.' ∈ (Pyson3.get_string
            ⟨[⟨.L_BRACKET, 0, 1⟩, ⟨.NUMBER, 1, 4⟩, ⟨.R_BRACKET, 4, 5⟩], 3, "[1.5]".data⟩
            ⟨.NUMBER, 1, 4⟩).data
        then .float q else .int (ratTrunc q) :=
  c1_number_classification.1 1
    ⟨[⟨.L_BRACKET, 0, 1⟩, ⟨.NUMBER, 1, 4⟩, ⟨.R_BRACKET, 4, 5⟩], 3, "[1.5]".data⟩
    1 ⟨.NUMBER, 1, 4⟩ (.float (3 / 2)) 2 rfl rfl rfl

/-- Helper: a single two-character replacement pass preserves a head
character different from the pattern's first character. -/
theorem replace2_head (p1 p2 : Char) (rep s : List Char) (c : Char)
    (hc : s.head? = some c) (hne : c ≠ p1) :
    (replace2 p1 p2 rep s).head? = some c := by
  match s with
  | [] => simp at hc
  | [a] =>
    simp only [List.head?] at hc
    cases hc
    rfl
  | a :: b :: rest =>
    simp only [List.head?] at hc
    cases hc
    rw [replace2]
    rw [if_neg (by rintro ⟨h1, _⟩; exact hne h1)]
    rfl

/-- C3 (amended): decoding applies the escape-replacement chain to the
full raw span including the delimiting quotes and strips nothing; the
decoded value of a span beginning with a quote still begins with a
quote, and `loads('["x"]')` yields the string `"x"` quotes included. -/
theorem c3_quotes_amended :
    (∀ s : List Char, s.head? = some '"' → (replaceChain s).head? = some '"') ∧
    Pyson3.loads "[\"x\"]" = .ok (.arr [.str "\"x\""]) := by
  refine ⟨?_, rfl⟩
  intro s h
  unfold replaceChain
  have h1 := replace2_head '\\' '\\' ['\\'] s '"' h (by decide)
  have h2 := replace2_head '\\' '"' ['"'] _ '"' h1 (by decide)
  have h3 := replace2_head '\\' '/' ['/'] _ '"' h2 (by decide)
  have h4 := replace2_head '\\' 'b' ['\x08'] _ '"' h3 (by decide)
  have h5 := replace2_head '\\' 'f' ['\x0C'] _ '"' h4 (by decide)
  have h6 := replace2_head '\\' 'n' ['\n'] _ '"' h5 (by decide)
  have h7 := replace2_head '\\' 'r' ['\r'] _ '"' h6 (by decide)
  have h8 := replace2_head '\\' 't' ['\t'] _ '"' h7 (by decide)
  exact replace2_head '\\' 'u' ['u'] _ '"' h8 (by decide)

/-- C3 witness: the head-preservation fact applied to the raw span of
`'"x"'`. -/
theorem c3_quotes_amended_witness :
    (replaceChain ("\"x\"" : String).data).head? = some '"' :=
  c3_quotes_amended.1 ("\"x\"" : String).data rfl

/-- C4 (amended): if a decoded key (quotes included, per the decoding)
equals a key already bound in the object being parsed, parsing fails
with "Duplicate key found"; `loads('{"a":1,"a":2}')` fails with that
error, and `loads('{"a":1,"b":2}')` succeeds with both decoded keys
`"a"` and `"b"` (quotes included) present. -/
theorem c4_duplicate_keys_amended :
    (∀ (fuel : Nat) (ctx : Pyson3.Ctx) (i : Nat) (result : List (String × Value))
        (known : List String) (t : Pyson3.Token),
      ctx.tokens.get? i = some t → t.type = .STRING → i < ctx.length →
      Pyson3.normalized_string ctx t ≠ "" → Pyson3.normalized_string ctx t ∈ known →
      Pyson3.parse_objectLoop (fuel + 1) ctx i result known =
        Pyson3.raiseError ctx i "Duplicate key found") ∧
    Pyson3.loads "\x7b\"a\":1,\"a\":2\x7d" =
      .error (.valueError "Duplicate key found"
        (some ([⟨.NUMBER, 5, 6⟩, ⟨.COMMA, 6, 7⟩], 5, ⟨.STRING, 7, 10⟩))) ∧
    Pyson3.loads "\x7b\"a\":1,\"b\":2\x7d" =
      .ok (.obj [("\"a\"", .int 1), ("\"b\"", .int 2)]) := by
  refine ⟨?_, rfl, rfl⟩
  intro fuel ctx i result known t hget htype hlt hne hmem
  obtain ⟨ty, ts, te⟩ := t
  cases htype
  unfold Pyson3.parse_objectLoop
  rw [if_pos hlt, hget]
  dsimp only
  rw [if_neg hne, if_pos hmem]

/-- C4 witness: the duplicate-key fact applied at the state reached by
`loads('{"a":1,"a":2}')` when the second `"a"` key is seen. -/
theorem c4_duplicate_keys_amended_witness :
    Pyson3.parse_objectLoop 2
      ⟨[⟨.L_CURLY, 0, 1⟩, ⟨.STRING, 1, 4⟩, ⟨.COLON, 4, 5⟩, ⟨.NUMBER, 5, 6⟩, ⟨.COMMA, 6, 7⟩,
        ⟨.STRING, 7, 10⟩, ⟨.COLON, 10, 11⟩, ⟨.NUMBER, 11, 12⟩, ⟨.R_CURLY, 12, 13⟩],
        9, "\x7b\"a\":1,\"a\":2\x7d".data⟩
      5 [("\"a\"", .int 1)] ["\"a\""] =
    Pyson3.raiseError
      ⟨[⟨.L_CURLY, 0, 1⟩, ⟨.STRING, 1, 4⟩, ⟨.COLON, 4, 5⟩, ⟨.NUMBER, 5, 6⟩, ⟨.COMMA, 6, 7⟩,
        ⟨.STRING, 7, 10⟩, ⟨.COLON, 10, 11⟩, ⟨.NUMBER, 11, 12⟩, ⟨.R_CURLY, 12, 13⟩],
        9, "\x7b\"a\":1,\"a\":2\x7d".data⟩
      5 "Duplicate key found" :=
  c4_duplicate_keys_amended.1 1
    ⟨[⟨.L_CURLY, 0, 1⟩, ⟨.STRING, 1, 4⟩, ⟨.COLON, 4, 5⟩, ⟨.NUMBER, 5, 6⟩, ⟨.COMMA, 6, 7⟩,
      ⟨.STRING, 7, 10⟩, ⟨.COLON, 10, 11⟩, ⟨.NUMBER, 11, 12⟩, ⟨.R_CURLY, 12, 13⟩],
      9, "\x7b\"a\":1,\"a\":2\x7d".data⟩
    5 [("\"a\"", .int 1)] ["\"a\""] ⟨.STRING, 7, 10⟩ rfl rfl (by decide) (by decide) (by decide)

/-- Helper: every error produced by the numeric scan carries no
diagnostic context. -/
theorem numberScan_errCtx {α : Type} :
    ∀ (fuel : Nat) (json : List Char) (i : Nat) (e : PyErr α),
      numberScan fuel json i = .error e → e.errCtx = none := by
  intro fuel
  induction fuel with
  | zero =>
    intro json i e h
    unfold numberScan at h
    injection h with h
    subst h
    rfl
  | succ fuel ih =>
    intro json i e h
    unfold numberScan at h
    cases hg : json.get? i with
    | none =>
      rw [hg] at h
      injection h with h
      subst h
      rfl
    | some c =>
      rw [hg] at h
      dsimp only at h
      by_cases hc : c ∈ NUMERIC
      · rw [if_pos hc] at h
        exact ih json (i + 1) e h
      · rw [if_neg hc] at h
        simp at h

/-- Helper: every error produced by the inner string scan of the
pyson3 lexer carries no diagnostic context. -/
theorem lexStringScan_errCtx :
    ∀ (fuel : Nat) (json : List Char) (i idx : Nat) (e : PyErr Pyson3.Token),
      Pyson3.lexStringScan fuel json i idx = .error e → e.errCtx = none := by
  intro fuel
  induction fuel with
  | zero =>
    intro json i idx e h
    unfold Pyson3.lexStringScan at h
    injection h with h
    subst h
    rfl
  | succ fuel ih =>
    intro json i idx e h
    unfold Pyson3.lexStringScan at h
    cases hg : json.get? idx with
    | none => rw [hg] at h; injection h with h; subst h; rfl
    | some v =>
      rw [hg] at h
      dsimp only at h
      by_cases hv : v = '"'
      · rw [if_pos hv] at h; simp at h
      · rw [if_neg hv] at h
        by_cases hb : v = '\\'
        · rw [if_pos hb] at h
          cases hg2 : json.get? (idx + 1) with
          | none => rw [hg2] at h; injection h with h; subst h; rfl
          | some n =>
            rw [hg2] at h
            dsimp only at h
            by_cases hesc : n ∈ Pyson3.escapeSimple
            · rw [if_pos hesc] at h
              exact ih json i (idx + 2) e h
            · rw [if_neg hesc] at h
              by_cases hu : n = 'u'
              · rw [if_pos hu] at h; injection h with h; subst h; rfl
              · rw [if_neg hu] at h; injection h with h; subst h; rfl
        · rw [if_neg hb] at h
          exact ih json i (idx + 1) e h

/-- Helper: every error produced by the pyson3 lexer loop carries no
diagnostic context (the lexer raises bare `ValueError`s and
`IndexError`s; only the parser's `_error` builds context). -/
theorem lexLoop_errCtx :
    ∀ (fuel : Nat) (json : List Char) (i : Nat) (acc : List Pyson3.Token)
      (e : PyErr Pyson3.Token),
      Pyson3.lexLoop fuel json i acc = .error e → e.errCtx = none := by
  intro fuel
  induction fuel with
  | zero =>
    intro json i acc e h
    unfold Pyson3.lexLoop at h
    injection h with h
    subst h
    rfl
  | succ fuel ih =>
    intro json i acc e h
    unfold Pyson3.lexLoop at h
    by_cases hlt : i < json.length
    · rw [if_pos hlt] at h
      split at h
      · injection h with h; subst h; rfl
      · rename_i c _
        by_cases h1 : c = '{'
        · rw [if_pos h1] at h; exact ih _ _ _ _ h
        rw [if_neg h1] at h
        by_cases h2 : c = '}'
        · rw [if_pos h2] at h; exact ih _ _ _ _ h
        rw [if_neg h2] at h
        by_cases h3 : c = '['
        · rw [if_pos h3] at h; exact ih _ _ _ _ h
        rw [if_neg h3] at h
        by_cases h4 : c = ']'
        · rw [if_pos h4] at h; exact ih _ _ _ _ h
        rw [if_neg h4] at h
        by_cases h5 : c = ':'
        · rw [if_pos h5] at h; exact ih _ _ _ _ h
        rw [if_neg h5] at h
        by_cases h6 : c = ','
        · rw [if_pos h6] at h; exact ih _ _ _ _ h
        rw [if_neg h6] at h
        by_cases h7 : c = 't'
        · rw [if_pos h7] at h
          by_cases ht : sliceN json i (i + 4) = "true".data
          · rw [if_pos ht] at h; exact ih _ _ _ _ h
          · rw [if_neg ht] at h; injection h with h; subst h; rfl
        rw [if_neg h7] at h
        by_cases h8 : c = 'f'
        · rw [if_pos h8] at h
          by_cases hf : sliceN json i (i + 5) = "false".data
          · rw [if_pos hf] at h; exact ih _ _ _ _ h
          · rw [if_neg hf] at h; injection h with h; subst h; rfl
        rw [if_neg h8] at h
        by_cases h9 : c = 'n'
        · rw [if_pos h9] at h
          by_cases hn : sliceN json i (i + 4) = "null".data
          · rw [if_pos hn] at h; exact ih _ _ _ _ h
          · rw [if_neg hn] at h; injection h with h; subst h; rfl
        rw [if_neg h9] at h
        by_cases h10 : c = '"'
        · rw [if_pos h10] at h
          cases hsc : Pyson3.lexStringScan (json.length + 1) json i (i + 1) with
          | error e2 =>
            rw [hsc] at h
            injection h with h
            subst h
            exact lexStringScan_errCtx _ _ _ _ _ hsc
          | ok p =>
            obtain ⟨t, j⟩ := p
            rw [hsc] at h
            exact ih _ _ _ _ h
        rw [if_neg h10] at h
        by_cases h11 : c ∈ NUMERIC
        · rw [if_pos h11] at h
          cases hns : (numberScan (json.length + 1) json i : Except (PyErr Pyson3.Token) Nat) with
          | error e2 =>
            rw [hns] at h
            injection h with h
            subst h
            exact numberScan_errCtx _ _ _ _ hns
          | ok j =>
            rw [hns] at h
            exact ih _ _ _ _ h
        · rw [if_neg h11] at h
          exact ih _ _ _ _ h
    · rw [if_neg hlt] at h
      simp at h

/-- C8 (amended): errors raised through the parser's `_error` helper
carry the diagnostic context — the two tokens preceding the cursor
(under Python slice semantics), the cursor position, and the token at
the cursor — whenever the cursor is in bounds; errors raised in the
lexer carry only a message and no context. -/
theorem c8_error_context_amended :
    (∀ (ctx : Pyson3.Ctx) (i : Nat) (msg : String) (t : Pyson3.Token),
      ctx.tokens.get? i = some t →
      (Pyson3.raiseError ctx i msg : Except (PyErr Pyson3.Token) Value) =
        .error (.valueError msg
          (some (pySlice ctx.tokens ((i : Int) - 2) (i : Int), i, t)))) ∧
    (∀ (json : List Char) (e : PyErr Pyson3.Token),
      Pyson3.lex json = .error e → e.errCtx = none) := by
  constructor
  · intro ctx i msg t hget
    unfold Pyson3.raiseError
    rw [hget]
  · intro json e h
    exact lexLoop_errCtx _ _ _ _ _ h

/-- C8 witness: the context-construction fact applied at a concrete
parser state, and the lexer fact applied to a concrete failing lex. -/
theorem c8_error_context_amended_witness :
    (Pyson3.raiseError ⟨[⟨.COMMA, 0, 1⟩], 1, []⟩ 0 "m" : Except (PyErr Pyson3.Token) Value) =
      .error (.valueError "m" (some ([], 0, ⟨.COMMA, 0, 1⟩))) ∧
    (PyErr.valueError "Invalid true value"
      (none : Option (List Pyson3.Token × Nat × Pyson3.Token))).errCtx = none := by
  constructor
  · have h := c8_error_context_amended.1 ⟨[⟨.COMMA, 0, 1⟩], 1, []⟩ 0 "m" ⟨.COMMA, 0, 1⟩ rfl
    rw [h]
    rfl
  · exact c8_error_context_amended.2 "tru\x7d".data (.valueError "Invalid true value" none) rfl

/-- C10 (amended): at a numeric-set character the lexer consumes the
maximal run of numeric-set characters; when a non-numeric character
follows the run it emits a Number token spanning exactly that run (as
in lexing `'[1,2] 5,'`), but when the run extends to the very end of
the input the scan indexes past the end and the lex fails with an
index error instead of emitting the token. -/
theorem c10_number_lexing_amended :
    (∀ (fuel : Nat) (json : List Char) (s j : Nat),
      (numberScan fuel json s : Except (PyErr Pyson3.Token) Nat) = .ok j →
      s ≤ j ∧ (∀ k, s ≤ k → k < j → ∃ c, json.get? k = some c ∧ c ∈ NUMERIC) ∧
      ∃ c, json.get? j = some c ∧ c ∉ NUMERIC) ∧
    Pyson3.lex "[1,2] 5,".data =
      .ok [⟨.L_BRACKET, 0, 1⟩, ⟨.NUMBER, 1, 2⟩, ⟨.COMMA, 2, 3⟩, ⟨.NUMBER, 3, 4⟩,
        ⟨.R_BRACKET, 4, 5⟩, ⟨.NUMBER, 6, 7⟩, ⟨.COMMA, 7, 8⟩] := by
  refine ⟨?_, rfl⟩
  intro fuel
  induction fuel with
  | zero =>
    intro json s j h
    unfold numberScan at h
    simp at h
  | succ fuel ih =>
    intro json s j h
    unfold numberScan at h
    cases hg : json.get? s with
    | none => rw [hg] at h; simp at h
    | some c =>
      rw [hg] at h
      dsimp only at h
      by_cases hc : c ∈ NUMERIC
      · rw [if_pos hc] at h
        obtain ⟨h1, h2, h3⟩ := ih json (s + 1) j h
        refine ⟨by omega, ?_, h3⟩
        intro k hk1 hk2
        rcases Nat.eq_or_lt_of_le hk1 with rfl | hk
        · exact ⟨c, hg, hc⟩
        · exact h2 k (by omega) hk2
      · rw [if_neg hc] at h
        simp only [Except.ok.injEq] at h
        subst h
        exact ⟨le_refl s, fun k hk1 hk2 => absurd (Nat.lt_of_le_of_lt hk1 hk2) (by omega),
          ⟨c, hg, hc⟩⟩

/-- C10 witness: the maximal-run characterization applied to the scan
of `'5,'` from position 0. -/
theorem c10_number_lexing_amended_witness :
    ∃ c, "5,".data.get? 1 = some c ∧ c ∉ NUMERIC :=
  (c10_number_lexing_amended.1 3 "5,".data 0 1 rfl).2.2

/-- Helper: resolving a span token preserves the token kind. -/
theorem cvTok_type (json : List Char) (t : Pyson3.Token) :
    (cvTok json t).type = t.type := by
  obtain ⟨ty, ts, te⟩ := t
  cases ty <;> rfl

/-- Helper: token lookup in the resolved token list. -/
theorem ctxRel_get (h : ctxRel ctx1 ctx3) (i : Nat) :
    ctx1.tokens.get? i = (ctx3.tokens.get? i).map (cvTok ctx3.json) := by
  rw [h.1, List.get?_map]

/-- Helper: the numeric scan behaves identically for both variants (its
errors carry no tokens, so they transport along `cvE`). -/
theorem numberScan_rel (fuel : Nat) (json : List Char) :
    ∀ i : Nat,
      (numberScan fuel json i : Except (PyErr Pyson.Token) Nat) =
        match (numberScan fuel json i : Except (PyErr Pyson3.Token) Nat) with
        | .error e => .error (cvE json e)
        | .ok j => .ok j := by
  induction fuel with
  | zero => intro i; rfl
  | succ fuel ih =>
    intro i
    unfold numberScan
    cases hg : json.get? i with
    | none => rfl
    | some c =>
      by_cases hc : c ∈ NUMERIC
      · dsimp only
        rw [if_pos hc, if_pos hc]
        exact ih (i + 1)
      · dsimp only
        rw [if_neg hc, if_neg hc]

/-- Helper: the two inner string scans correspond — same traversal and
errors, with variant 1 materializing the decoded text that `cvTok`
resolves from variant 3's span token. -/
theorem lexStringScan_rel (fuel : Nat) (json : List Char) (i : Nat) :
    ∀ idx : Nat,
      Pyson.lexStringScan fuel json i idx =
        match Pyson3.lexStringScan fuel json i idx with
        | .error e => .error (cvE json e)
        | .ok (t, j) => .ok (cvTok json t, j) := by
  induction fuel with
  | zero => intro idx; rfl
  | succ fuel ih =>
    intro idx
    unfold Pyson.lexStringScan Pyson3.lexStringScan
    cases hg : json.get? idx with
    | none => rfl
    | some v =>
      dsimp only
      by_cases hv : v = '"'
      · rw [if_pos hv, if_pos hv]
        rfl
      · rw [if_neg hv, if_neg hv]
        by_cases hb : v = '\\'
        · rw [if_pos hb, if_pos hb]
          cases hg2 : json.get? (idx + 1) with
          | none => rfl
          | some n =>
            dsimp only
            by_cases hesc : n ∈ Pyson3.escapeSimple
            · rw [if_pos hesc, if_pos hesc]
              exact ih (idx + 2)
            · rw [if_neg hesc, if_neg hesc]
              by_cases hu : n = 'u'
              · rw [if_pos hu, if_pos hu]
                rfl
              · rw [if_neg hu, if_neg hu]
                rfl
        · rw [if_neg hb, if_neg hb]
          exact ih (idx + 1)

/-- Helper: the two lexer loops correspond — identical control flow and
errors, with variant 1 producing exactly the resolved (`cvTok`) form of
variant 3's span tokens. -/
theorem lexLoop_rel (json : List Char) :
    ∀ (fuel i : Nat) (acc : List Pyson3.Token),
      Pyson.lexLoop fuel json i (acc.map (cvTok json)) =
        match Pyson3.lexLoop fuel json i acc with
        | .error e => .error (cvE json e)
        | .ok ts => .ok (ts.map (cvTok json)) := by
  intro fuel
  induction fuel with
  | zero => intro i acc; rfl
  | succ fuel ih =>
    intro i acc
    unfold Pyson.lexLoop Pyson3.lexLoop
    by_cases hlt : i < json.length
    · rw [if_pos hlt, if_pos hlt]
      cases hg : json.get? i with
      | none => rfl
      | some c =>
        dsimp only
        by_cases h1 : c = '{'
        · rw [if_pos h1, if_pos h1]
          have h := ih (i + 1) (acc ++ [⟨.L_CURLY, i, i + 1⟩])
          rw [List.map_append] at h
          exact h
        rw [if_neg h1, if_neg h1]
        by_cases h2 : c = '}'
        · rw [if_pos h2, if_pos h2]
          have h := ih (i + 1) (acc ++ [⟨.R_CURLY, i, i + 1⟩])
          rw [List.map_append] at h
          exact h
        rw [if_neg h2, if_neg h2]
        by_cases h3 : c = '['
        · rw [if_pos h3, if_pos h3]
          have h := ih (i + 1) (acc ++ [⟨.L_BRACKET, i, i + 1⟩])
          rw [List.map_append] at h
          exact h
        rw [if_neg h3, if_neg h3]
        by_cases h4 : c = ']'
        · rw [if_pos h4, if_pos h4]
          have h := ih (i + 1) (acc ++ [⟨.R_BRACKET, i, i + 1⟩])
          rw [List.map_append] at h
          exact h
        rw [if_neg h4, if_neg h4]
        by_cases h5 : c = ':'
        · rw [if_pos h5, if_pos h5]
          have h := ih (i + 1) (acc ++ [⟨.COLON, i, i + 1⟩])
          rw [List.map_append] at h
          exact h
        rw [if_neg h5, if_neg h5]
        by_cases h6 : c = ','
        · rw [if_pos h6, if_pos h6]
          have h := ih (i + 1) (acc ++ [⟨.COMMA, i, i + 1⟩])
          rw [List.map_append] at h
          exact h
        rw [if_neg h6, if_neg h6]
        by_cases h7 : c = 't'
        · rw [if_pos h7, if_pos h7]
          by_cases ht : sliceN json i (i + 4) = "true".data
          · rw [if_pos ht, if_pos ht]
            have h := ih (i + 4) (acc ++ [⟨.BOOLEAN, i, i + 4⟩])
            rw [List.map_append] at h
            simp only [List.map_cons, List.map_nil, cvTok] at h
            rw [ht] at h
            exact h
          · rw [if_neg ht, if_neg ht]
            rfl
        rw [if_neg h7, if_neg h7]
        by_cases h8 : c = 'f'
        · rw [if_pos h8, if_pos h8]
          by_cases hf : sliceN json i (i + 5) = "false".data
          · rw [if_pos hf, if_pos hf]
            have h := ih (i + 5) (acc ++ [⟨.BOOLEAN, i, i + 5⟩])
            rw [List.map_append] at h
            simp only [List.map_cons, List.map_nil, cvTok] at h
            rw [hf] at h
            exact h
          · rw [if_neg hf, if_neg hf]
            rfl
        rw [if_neg h8, if_neg h8]
        by_cases h9 : c = 'n'
        · rw [if_pos h9, if_pos h9]
          by_cases hn : sliceN json i (i + 4) = "null".data
          · rw [if_pos hn, if_pos hn]
            have h := ih (i + 4) (acc ++ [⟨.NULL, i, i + 4⟩])
            rw [List.map_append] at h
            simp only [List.map_cons, List.map_nil, cvTok] at h
            rw [hn] at h
            exact h
          · rw [if_neg hn, if_neg hn]
            rfl
        rw [if_neg h9, if_neg h9]
        by_cases h10 : c = '"'
        · rw [if_pos h10, if_pos h10]
          rw [lexStringScan_rel (json.length + 1) json i (i + 1)]
          cases hsc : Pyson3.lexStringScan (json.length + 1) json i (i + 1) with
          | error e2 => rfl
          | ok p =>
            obtain ⟨t, j⟩ := p
            dsimp only
            have h := ih j (acc ++ [t])
            rw [List.map_append] at h
            exact h
        rw [if_neg h10, if_neg h10]
        by_cases h11 : c ∈ NUMERIC
        · rw [if_pos h11, if_pos h11]
          rw [numberScan_rel (json.length + 1) json i]
          cases hns : (numberScan (json.length + 1) json i :
              Except (PyErr Pyson3.Token) Nat) with
          | error e2 => rfl
          | ok j =>
            dsimp only
            have h := ih j (acc ++ [⟨.NUMBER, i, j⟩])
            rw [List.map_append] at h
            exact h
        · rw [if_neg h11, if_neg h11]
          exact ih (i + 1) acc
    · rw [if_neg hlt, if_neg hlt]

/-- Helper: the two lexers correspond. -/
theorem lex_rel (json : List Char) :
    Pyson.lex json =
      match Pyson3.lex json with
      | .error e => .error (cvE json e)
      | .ok ts => .ok (ts.map (cvTok json)) := by
  have h := lexLoop_rel json (json.length + 1) 0 []
  simpa [Pyson.lex, Pyson3.lex] using h

/-- Helper: `raiseError` of variant 1 always produces an error. -/
theorem raiseError1_isError (ctx : Pyson.Ctx) (i : Nat) (msg : String) :
    ∃ e, (Pyson.raiseError ctx i msg : Except (PyErr Pyson.Token) α) = .error e := by
  unfold Pyson.raiseError
  cases ctx.tokens.get? i with
  | none => exact ⟨_, rfl⟩
  | some t => exact ⟨_, rfl⟩

/-- Helper: `raiseError` of variant 3 always produces an error. -/
theorem raiseError3_isError (ctx : Pyson3.Ctx) (i : Nat) (msg : String) :
    ∃ e, (Pyson3.raiseError ctx i msg : Except (PyErr Pyson3.Token) α) = .error e := by
  unfold Pyson3.raiseError
  cases ctx.tokens.get? i with
  | none => exact ⟨_, rfl⟩
  | some t => exact ⟨_, rfl⟩

/-- Helper: the unconditional comma consumption corresponds across the
two variants. -/
theorem commaSkip_rel {ctx1 : Pyson.Ctx} {ctx3 : Pyson3.Ctx}
    (hrel : ctxRel ctx1 ctx3) (i : Nat) :
    Pyson.commaSkip ctx1 i =
      match Pyson3.commaSkip ctx3 i with
      | .error e => .error (cvE ctx3.json e)
      | .ok j => .ok j := by
  unfold Pyson.commaSkip Pyson3.commaSkip
  rw [ctxRel_get hrel]
  cases hg : ctx3.tokens.get? i with
  | none => rfl
  | some t =>
    dsimp only [Option.map]
    rw [cvTok_type]
    by_cases hc : t.type = .COMMA
    · rw [if_pos hc, if_pos hc]
    · rw [if_neg hc, if_neg hc]

/-- Helper: finishing a produced value corresponds across the two
variants. -/
theorem finishValue_rel {ctx1 : Pyson.Ctx} {ctx3 : Pyson3.Ctx}
    (hrel : ctxRel ctx1 ctx3) (v : Value) (j : Nat) :
    resRel (Pyson.finishValue ctx1 v j) (Pyson3.finishValue ctx3 v j) := by
  unfold Pyson.finishValue Pyson3.finishValue
  rw [commaSkip_rel hrel]
  cases hcs : Pyson3.commaSkip ctx3 j with
  | error e => exact Or.inr ⟨⟨_, rfl⟩, ⟨_, rfl⟩⟩
  | ok j2 => exact Or.inl ⟨v, j2, rfl, rfl⟩

/-- Helper: the three parsing functions of the two variants correspond
under the token-resolution relation, at every fuel level: both produce
the same value and cursor, or both fail. -/
theorem parser_rel :
    ∀ (fuel : Nat) (ctx3 : Pyson3.Ctx) (ctx1 : Pyson.Ctx), ctxRel ctx1 ctx3 →
      (∀ i, resRel (Pyson.parse_value fuel ctx1 i) (Pyson3.parse_value fuel ctx3 i)) ∧
      (∀ i result known,
        resRel (Pyson.parse_objectLoop fuel ctx1 i result known)
          (Pyson3.parse_objectLoop fuel ctx3 i result known)) ∧
      (∀ i result,
        resRel (Pyson.parse_arrayLoop fuel ctx1 i result)
          (Pyson3.parse_arrayLoop fuel ctx3 i result)) := by
  intro fuel
  induction fuel with
  | zero =>
    intro ctx3 ctx1 hrel
    exact ⟨fun i => Or.inr ⟨⟨_, rfl⟩, ⟨_, rfl⟩⟩,
      fun i r k => Or.inr ⟨⟨_, rfl⟩, ⟨_, rfl⟩⟩,
      fun i r => Or.inr ⟨⟨_, rfl⟩, ⟨_, rfl⟩⟩⟩
  | succ fuel ih =>
    intro ctx3 ctx1 hrel
    obtain ⟨ihv, iho, iha⟩ := ih ctx3 ctx1 hrel
    refine ⟨?_, ?_, ?_⟩
    · intro i
      unfold Pyson.parse_value Pyson3.parse_value
      rw [ctxRel_get hrel]
      cases hg : ctx3.tokens.get? i with
      | none => exact Or.inr ⟨⟨_, rfl⟩, ⟨_, rfl⟩⟩
      | some t =>
        dsimp only [Option.map]
        obtain ⟨ty, ts, te⟩ := t
        cases ty
        case STRING =>
          dsimp only [cvTok]
          exact finishValue_rel hrel _ _
        case NUMBER =>
          dsimp only [cvTok, Pyson3.get_string]
          by_cases hemp : String.mk (sliceN ctx3.json ts te) = ""
          · rw [if_pos hemp]
            have hnil : sliceN ctx3.json ts te = [] := congrArg String.data hemp
            rw [hnil]
            exact Or.inr ⟨⟨_, rfl⟩, ⟨_, rfl⟩⟩
          · rw [if_neg hemp]
            cases hq : pyFloat (sliceN ctx3.json ts te) with
            | none => exact Or.inr ⟨⟨_, rfl⟩, ⟨_, rfl⟩⟩
            | some q => exact finishValue_rel hrel _ _
        case L_CURLY =>
          dsimp only [cvTok]
          rcases iho (i + 1) [] [] with ⟨kvs, j, h1, h3⟩ | ⟨⟨e1, h1⟩, ⟨e3, h3⟩⟩
          · rw [h1, h3]
            exact finishValue_rel hrel (.obj kvs) j
          · rw [h1, h3]
            exact Or.inr ⟨⟨_, rfl⟩, ⟨_, rfl⟩⟩
        case L_BRACKET =>
          dsimp only [cvTok]
          rcases iha (i + 1) [] with ⟨xs, j, h1, h3⟩ | ⟨⟨e1, h1⟩, ⟨e3, h3⟩⟩
          · rw [h1, h3]
            exact finishValue_rel hrel (.arr xs) j
          · rw [h1, h3]
            exact Or.inr ⟨⟨_, rfl⟩, ⟨_, rfl⟩⟩
        case BOOLEAN =>
          dsimp only [cvTok]
          exact finishValue_rel hrel _ _
        case NULL =>
          dsimp only [cvTok]
          exact finishValue_rel hrel _ _
        all_goals
          dsimp only [cvTok]
          obtain ⟨e1, h1⟩ := raiseError1_isError (α := Value × Nat) ctx1 i "Unknown tokentype"
          obtain ⟨e3, h3⟩ := raiseError3_isError (α := Value × Nat) ctx3 i "Unknown tokentype"
          rw [h1, h3]
          exact Or.inr ⟨⟨_, rfl⟩, ⟨_, rfl⟩⟩
    · intro i result known
      unfold Pyson.parse_objectLoop Pyson3.parse_objectLoop
      rw [hrel.2]
      by_cases hlt : i < ctx3.length
      · rw [if_pos hlt, if_pos hlt]
        rw [ctxRel_get hrel]
        cases hg : ctx3.tokens.get? i with
        | none => exact Or.inr ⟨⟨_, rfl⟩, ⟨_, rfl⟩⟩
        | some t =>
          dsimp only [Option.map]
          obtain ⟨ty, ts, te⟩ := t
          cases ty with
          | R_CURLY =>
            dsimp only [cvTok]
            exact Or.inl ⟨result, i + 1, rfl, rfl⟩
          | STRING =>
            dsimp only [cvTok, Pyson3.normalized_string, Pyson3.get_string]
            by_cases hk : String.mk (replaceChain (sliceN ctx3.json ts te)) = ""
            · rw [if_pos hk, if_pos hk]
              exact Or.inr ⟨⟨_, rfl⟩, ⟨_, rfl⟩⟩
            · rw [if_neg hk, if_neg hk]
              by_cases hmem : String.mk (replaceChain (sliceN ctx3.json ts te)) ∈ known
              · rw [if_pos hmem, if_pos hmem]
                obtain ⟨e1, h1⟩ := raiseError1_isError
                  (α := List (String × Value) × Nat) ctx1 i "Duplicate key found"
                obtain ⟨e3, h3⟩ := raiseError3_isError
                  (α := List (String × Value) × Nat) ctx3 i "Duplicate key found"
                rw [h1, h3]
                exact Or.inr ⟨⟨_, rfl⟩, ⟨_, rfl⟩⟩
              · rw [if_neg hmem, if_neg hmem]
                rw [ctxRel_get hrel]
                cases hg2 : ctx3.tokens.get? (i + 1) with
                | none => exact Or.inr ⟨⟨_, rfl⟩, ⟨_, rfl⟩⟩
                | some t2 =>
                  dsimp only [Option.map]
                  rw [cvTok_type]
                  by_cases hcol : t2.type ≠ .COLON
                  · rw [if_pos hcol, if_pos hcol]
                    obtain ⟨e1, h1⟩ := raiseError1_isError
                      (α := List (String × Value) × Nat) ctx1 (i + 1) "Expected colon"
                    obtain ⟨e3, h3⟩ := raiseError3_isError
                      (α := List (String × Value) × Nat) ctx3 (i + 1) "Expected colon"
                    rw [h1, h3]
                    exact Or.inr ⟨⟨_, rfl⟩, ⟨_, rfl⟩⟩
                  · rw [if_neg hcol, if_neg hcol]
                    rcases ihv (i + 2) with ⟨v, j, h1, h3⟩ | ⟨⟨e1, h1⟩, ⟨e3, h3⟩⟩
                    · rw [h1, h3]
                      exact iho j
                        (result ++ [(String.mk (replaceChain (sliceN ctx3.json ts te)), v)])
                        (known ++ [String.mk (replaceChain (sliceN ctx3.json ts te))])
                    · rw [h1, h3]
                      exact Or.inr ⟨⟨_, rfl⟩, ⟨_, rfl⟩⟩
          | L_CURLY => ?_
          | L_BRACKET => ?_
          | R_BRACKET => ?_
          | COLON => ?_
          | COMMA => ?_
          | NUMBER => ?_
          | BOOLEAN => ?_
          | NULL => ?_
          all_goals
            dsimp only [cvTok]
            obtain ⟨e1, h1⟩ := raiseError1_isError
              (α := List (String × Value) × Nat) ctx1 i "Invalid object content"
            obtain ⟨e3, h3⟩ := raiseError3_isError
              (α := List (String × Value) × Nat) ctx3 i "Invalid object content"
            rw [h1, h3]
            exact Or.inr ⟨⟨_, rfl⟩, ⟨_, rfl⟩⟩
      · rw [if_neg hlt, if_neg hlt]
        exact Or.inl ⟨result, i, rfl, rfl⟩
    · intro i result
      unfold Pyson.parse_arrayLoop Pyson3.parse_arrayLoop
      rw [hrel.2]
      by_cases hlt : i < ctx3.length
      · rw [if_pos hlt, if_pos hlt]
        rw [ctxRel_get hrel]
        cases hg : ctx3.tokens.get? i with
        | none => exact Or.inr ⟨⟨_, rfl⟩, ⟨_, rfl⟩⟩
        | some t =>
          dsimp only [Option.map]
          rw [cvTok_type]
          by_cases hrb : t.type = .R_BRACKET
          · rw [if_pos hrb, if_pos hrb]
            exact Or.inl ⟨result, i + 1, rfl, rfl⟩
          · rw [if_neg hrb, if_neg hrb]
            rcases ihv i with ⟨v, j, h1, h3⟩ | ⟨⟨e1, h1⟩, ⟨e3, h3⟩⟩
            · rw [h1, h3]
              exact iha j (result ++ [v])
            · rw [h1, h3]
              exact Or.inr ⟨⟨_, rfl⟩, ⟨_, rfl⟩⟩
      · rw [if_neg hlt, if_neg hlt]
        exact Or.inl ⟨result, i, rfl, rfl⟩

/-- Helper: the two `loads` entry points correspond on every input:
both succeed with the same value tree, or both fail. -/
theorem loads_rel (s : String) :
    (∃ v, Pyson.loads s = .ok v ∧ Pyson3.loads s = .ok v) ∨
    ((∃ e, Pyson.loads s = .error e) ∧ (∃ e, Pyson3.loads s = .error e)) := by
  unfold Pyson.loads Pyson3.loads Pyson3.parse
  rw [lex_rel s.data]
  cases hl : Pyson3.lex s.data with
  | error e => exact Or.inr ⟨⟨_, rfl⟩, ⟨_, rfl⟩⟩
  | ok ts =>
    dsimp only
    unfold Pyson.parse
    dsimp only
    rw [List.length_map]
    by_cases h2 : ts.length < 2
    · rw [if_pos h2, if_pos h2]
      exact Or.inr ⟨⟨_, rfl⟩, ⟨_, rfl⟩⟩
    · rw [if_neg h2, if_neg h2]
      rw [List.get?_map]
      cases hg : ts.get? 0 with
      | none => exact Or.inr ⟨⟨_, rfl⟩, ⟨_, rfl⟩⟩
      | some t0 =>
        dsimp only [Option.map]
        obtain ⟨ty, ts0, te0⟩ := t0
        cases ty with
        | L_CURLY =>
          dsimp only [cvTok]
          rcases (parser_rel (parserFuel ts.length) ⟨ts, ts.length, s.data⟩
              ⟨ts.map (cvTok s.data), ts.length⟩ ⟨rfl, rfl⟩).2.1 1 [] [] with
            ⟨kvs, j, h1, h3⟩ | ⟨⟨e1, h1⟩, ⟨e3, h3⟩⟩
          · rw [h1, h3]
            exact Or.inl ⟨.obj kvs, rfl, rfl⟩
          · rw [h1, h3]
            exact Or.inr ⟨⟨_, rfl⟩, ⟨_, rfl⟩⟩
        | L_BRACKET =>
          dsimp only [cvTok]
          rcases (parser_rel (parserFuel ts.length) ⟨ts, ts.length, s.data⟩
              ⟨ts.map (cvTok s.data), ts.length⟩ ⟨rfl, rfl⟩).2.2 1 [] with
            ⟨xs, j, h1, h3⟩ | ⟨⟨e1, h1⟩, ⟨e3, h3⟩⟩
          · rw [h1, h3]
            exact Or.inl ⟨.arr xs, rfl, rfl⟩
          · rw [h1, h3]
            exact Or.inr ⟨⟨_, rfl⟩, ⟨_, rfl⟩⟩
        | R_CURLY => ?_
        | R_BRACKET => ?_
        | COLON => ?_
        | COMMA => ?_
        | STRING => ?_
        | NUMBER => ?_
        | BOOLEAN => ?_
        | NULL => ?_
        all_goals
          dsimp only [cvTok]
          obtain ⟨e1, h1⟩ := raiseError1_isError (α := Value)
            ⟨ts.map (cvTok s.data), ts.length⟩ 1 "Invalid input"
          obtain ⟨e3, h3⟩ := raiseError3_isError (α := Value)
            ⟨ts, ts.length, s.data⟩ 1 "Invalid input"
          rw [h1, h3]
          exact Or.inr ⟨⟨_, rfl⟩, ⟨_, rfl⟩⟩

/-- C7: the first variant's decoder (`loads` of pyson.py, eagerly
decoded owned token text) and the third variant's decoder (`loads` of
pyson3.py, deferred span-based decoding) are extensionally equal: on
each input they either both fail or both return the same value tree. -/
theorem c7_variant_equivalence :
    ∀ (s : String) (v : Value), Pyson.loads s = .ok v ↔ Pyson3.loads s = .ok v := by
  intro s v
  rcases loads_rel s with ⟨w, h1, h3⟩ | ⟨⟨e1, h1⟩, ⟨e3, h3⟩⟩
  · constructor
    · intro h
      rw [h1] at h
      injection h with h
      rw [← h]
      exact h3
    · intro h
      rw [h3] at h
      injection h with h
      rw [← h]
      exact h1
  · constructor
    · intro h
      rw [h1] at h
      simp at h
    · intro h
      rw [h3] at h
      simp at h

/-- C7 witness: the equivalence applied at `'[1]'`, transporting the
concrete run of the pyson.py decoder to the pyson3.py decoder. -/
theorem c7_variant_equivalence_witness :
    Pyson3.loads "[1]" = .ok (.arr [.int 1]) :=
  (c7_variant_equivalence "[1]" (.arr [.int 1])).mp (by rfl)
